import Mathlib

/-!
Shallow embedding of `ironicclient/common/http.py` (python-ironicclient)
together with theorems checking the natural-language specification of the
HTTP transport layer against the code.

Conventions used throughout:
* Python strings are Lean `String`s; `None` is `Option.none`.
* Machine-level exceptions are values of `PyExc`; Python functions that can
  raise are embedded as `Except PyExc _`.
* Recursion that is a `while` loop or a recursive-descent parser in the
  source is embedded with an explicit fuel argument (structural recursion,
  so every definition evaluates by `rfl`/`decide`); the fuel supplied at
  each call site is provably larger than the number of loop iterations, so
  the fuel-exhaustion branch is unreachable.
-/

namespace IronicSpec

/-- A Python value produced by `json.loads`.  Numbers keep their source
lexeme (their numeric value is never inspected by this code). -/
inductive PyJson where
  | null
  | bool (b : Bool)
  | num (raw : String)
  | str (s : String)
  | arr (elems : List PyJson)
  | obj (members : List (String × PyJson))

/-- Payload of `exc.from_response`.

Modelled from the spec: the `ironicclient.exc` module is not among the
sources; per the spec the executor must "raise a typed error carrying
status, fault string, debug info, method, and URL", so `from_response` is
modelled as constructing exactly that record. -/
structure HttpErrorInfo where
  status : Nat
  faultstring : Option PyJson
  debuginfo : Option PyJson
  method : String
  url : String

/-- Python exception kinds that appear in the embedded code paths.

Modelled from the spec where the class lives in the missing
`ironicclient.exc` module: `conflict`, `serviceUnavailable`,
`connectionRefused`, `unsupportedVersion`, `endpointNotFound` and
`fromResponse` (the typed HTTP error built by `exc.from_response`).
The remaining constructors are the Python builtin exceptions raised by
the standard library calls in `http.py`. -/
inductive PyExc where
  | valueError
  | typeError
  | keyError
  | attributeError
  | runtimeError
  | conflict
  | serviceUnavailable
  | connectionRefused
  | endpointNotFound
  | unsupportedVersion (requested minVer maxVer : Option String)
  | fromResponse (info : HttpErrorInfo)

/-! ### Character and string helpers (Python semantics) -/

def isWs (c : Char) : Bool := c == ' ' || c == '\t' || c == '\n' || c == '\r'

def skipWs (cs : List Char) : List Char := cs.dropWhile isWs

def isDigitC (c : Char) : Bool := '0' ≤ c && c ≤ '9'

def lowerChar (c : Char) : Char :=
  if 'A' ≤ c && c ≤ 'Z' then Char.ofNat (c.toNat + 32) else c

/-- Decimal digits of `n`, most significant first (fuel-driven; `n + 1`
fuel always suffices). -/
def natDigits : Nat → Nat → List Char
  | 0, _ => []
  | fuel + 1, n =>
    if n < 10 then [Char.ofNat (48 + n)]
    else natDigits fuel (n / 10) ++ [Char.ofNat (48 + n % 10)]

/-- Python `str` applied to a nonnegative `int`. -/
def natStr (n : Nat) : String := ⟨natDigits (n + 1) n⟩

/-- Python `s.split(sep)` for a one-character separator (always returns at
least one part). -/
def splitOnChar (sep : Char) : List Char → List (List Char)
  | [] => [[]]
  | c :: rest =>
    if c == sep then [] :: splitOnChar sep rest
    else
      match splitOnChar sep rest with
      | [] => [[c]]
      | p :: ps => (c :: p) :: ps

/-- Split at the first occurrence of `sep` (Python `partition`). -/
def splitFirstAt (sep : Char) : List Char → Option (List Char × List Char)
  | [] => none
  | c :: rest =>
    if c == sep then some ([], rest)
    else
      match splitFirstAt sep rest with
      | some (a, b) => some (c :: a, b)
      | none => none

/-- Split at the last occurrence of `sep` (Python `rpartition`). -/
def splitLastAt (sep : Char) : List Char → Option (List Char × List Char)
  | [] => none
  | c :: rest =>
    match splitLastAt sep rest with
    | some (a, b) => some (c :: a, b)
    | none => if c == sep then some ([], rest) else none

/-- The suffix following the first occurrence of `pat` as a contiguous
sublist, if any. -/
def afterSubstr (pat : List Char) : List Char → Option (List Char)
  | [] => if pat.isEmpty then some [] else none
  | c :: rest =>
    if pat.isPrefixOf (c :: rest) then some ((c :: rest).drop pat.length)
    else afterSubstr pat rest

/-- Python `pat in s` for strings (substring containment). -/
def containsSub (pat : List Char) (cs : List Char) : Bool :=
  (afterSubstr pat cs).isSome

/-- Lexicographic comparison of code-point lists: Python `<` on `str`. -/
def listStrLt : List Char → List Char → Bool
  | [], [] => false
  | [], _ :: _ => true
  | _ :: _, [] => false
  | a :: as2, b :: bs2 =>
    if a.toNat < b.toNat then true
    else if b.toNat < a.toNat then false
    else listStrLt as2 bs2

/-- Python `<` on two strings. -/
def pyStrLt (a b : String) : Bool := listStrLt a.data b.data

/-- Python truthiness of an optional string (`None` and `""` are falsy). -/
def pyTruthyStr : Option String → Bool
  | none => false
  | some s => !s.isEmpty

/-- Python `s.rstrip(chars)`: remove the longest trailing run of
characters drawn from `chars` (a character SET, not a suffix). -/
def pyRstrip (s : String) (chars : List Char) : String :=
  ⟨(s.data.reverse.dropWhile (fun ch => decide (ch ∈ chars))).reverse⟩

/-! ### A model of `json.loads`

`json.loads` on a `str` argument either returns a Python value or raises
`ValueError`; on a non-`str` argument it raises `TypeError` (that case is
handled at the call sites).  The parser below implements the strict JSON
grammar accepted by the standard decoder; fuel exhaustion (unreachable for
the fuel supplied by `json_loads`) is reported as `ValueError`. -/

def unescapeChar (e : Char) : Option Char :=
  if e == '"' then some '"'
  else if e == '\\' then some '\\'
  else if e == '/' then some '/'
  else if e == 'b' then some (Char.ofNat 8)
  else if e == 'f' then some (Char.ofNat 12)
  else if e == 'n' then some '\n'
  else if e == 'r' then some '\r'
  else if e == 't' then some '\t'
  else none

def hexVal (c : Char) : Option Nat :=
  if '0' ≤ c && c ≤ '9' then some (c.toNat - 48)
  else if 'a' ≤ c && c ≤ 'f' then some (c.toNat - 87)
  else if 'A' ≤ c && c ≤ 'F' then some (c.toNat - 55)
  else none

/-- Body of a JSON string literal after the opening quote; returns the
decoded characters and the remaining input after the closing quote. -/
def parseStringBody : Nat → List Char → Option (List Char × List Char)
  | 0, _ => none
  | _, [] => none
  | fuel + 1, c :: rest =>
    if c == '"' then some ([], rest)
    else if c == '\\' then
      match rest with
      | [] => none
      | e :: rest2 =>
        if e == 'u' then
          match rest2 with
          | h1 :: h2 :: h3 :: h4 :: rest3 =>
            match hexVal h1, hexVal h2, hexVal h3, hexVal h4 with
            | some a, some b, some c3, some d3 =>
              match parseStringBody fuel rest3 with
              | some (s, r2) =>
                some (Char.ofNat (((a * 16 + b) * 16 + c3) * 16 + d3) :: s, r2)
              | none => none
            | _, _, _, _ => none
          | _ => none
        else
          match unescapeChar e with
          | some d =>
            match parseStringBody fuel rest2 with
            | some (s, r2) => some (d :: s, r2)
            | none => none
          | none => none
    else if c.toNat < 32 then none
    else
      match parseStringBody fuel rest with
      | some (s, r2) => some (c :: s, r2)
      | none => none

/-- Fractional part `.digits`, or nothing. -/
def parseFrac : List Char → Option (List Char × List Char)
  | '.' :: r =>
    let ds := r.takeWhile isDigitC
    if ds.isEmpty then none else some ('.' :: ds, r.dropWhile isDigitC)
  | cs => some ([], cs)

/-- Exponent part `e[+-]digits`, or nothing. -/
def parseExp : List Char → Option (List Char × List Char)
  | [] => some ([], [])
  | c :: r =>
    if c == 'e' || c == 'E' then
      let sr : List Char × List Char :=
        match r with
        | '+' :: rr => (['+'], rr)
        | '-' :: rr => (['-'], rr)
        | _ => ([], r)
      let ds := sr.2.takeWhile isDigitC
      if ds.isEmpty then none
      else some (c :: (sr.1 ++ ds), sr.2.dropWhile isDigitC)
    else some ([], c :: r)

/-- A JSON number token; returns its lexeme and the rest of the input. -/
def parseNumber (cs : List Char) : Option (List Char × List Char) :=
  let nr : List Char × List Char :=
    match cs with
    | '-' :: r => (['-'], r)
    | _ => ([], cs)
  match nr.2 with
  | [] => none
  | c :: _ =>
    if !isDigitC c then none
    else
      let ir : List Char × List Char :=
        match nr.2 with
        | '0' :: r => (['0'], r)
        | l => (l.takeWhile isDigitC, l.dropWhile isDigitC)
      match parseFrac ir.2 with
      | none => none
      | some (f, r2) =>
        match parseExp r2 with
        | none => none
        | some (e, r3) => some (nr.1 ++ ir.1 ++ f ++ e, r3)

/-- Insert a member into a JSON object under Python `dict` semantics:
a repeated key overwrites the earlier value in place. -/
def objInsert (acc : List (String × PyJson)) (k : String) (v : PyJson) :
    List (String × PyJson) :=
  if acc.any (fun kv => kv.1 == k) then
    acc.map (fun kv => if kv.1 == k then (k, v) else kv)
  else acc ++ [(k, v)]

/-- What the recursive-descent decoder is currently parsing. -/
inductive ParseMode where
  | value
  | members (acc : List (String × PyJson))
  | elems (acc : List PyJson)

/-- The JSON decoder.  One fuel unit is spent per recursive call. -/
def parseJ : Nat → ParseMode → List Char → Except PyExc (PyJson × List Char)
  | 0, _, _ => .error .valueError
  | fuel + 1, .value, cs0 =>
    match skipWs cs0 with
    | [] => .error .valueError
    | c :: rest =>
      if c == '{' then
        match skipWs rest with
        | '}' :: r2 => .ok (.obj [], r2)
        | cs2 => parseJ fuel (.members []) cs2
      else if c == '[' then
        match skipWs rest with
        | ']' :: r2 => .ok (.arr [], r2)
        | cs2 => parseJ fuel (.elems []) cs2
      else if c == '"' then
        match parseStringBody (rest.length + 1) rest with
        | some (s, r2) => .ok (.str ⟨s⟩, r2)
        | none => .error .valueError
      else if c == 't' then
        match rest with
        | 'r' :: 'u' :: 'e' :: r2 => .ok (.bool true, r2)
        | _ => .error .valueError
      else if c == 'f' then
        match rest with
        | 'a' :: 'l' :: 's' :: 'e' :: r2 => .ok (.bool false, r2)
        | _ => .error .valueError
      else if c == 'n' then
        match rest with
        | 'u' :: 'l' :: 'l' :: r2 => .ok (.null, r2)
        | _ => .error .valueError
      else
        match parseNumber (c :: rest) with
        | some (lex, r2) => .ok (.num ⟨lex⟩, r2)
        | none => .error .valueError
  | fuel + 1, .members acc, cs =>
    match skipWs cs with
    | '"' :: rest =>
      match parseStringBody (rest.length + 1) rest with
      | some (k, r2) =>
        match skipWs r2 with
        | ':' :: r3 =>
          match parseJ fuel .value r3 with
          | .ok (v, r4) =>
            match skipWs r4 with
            | ',' :: r5 => parseJ fuel (.members (objInsert acc ⟨k⟩ v)) r5
            | '}' :: r5 => .ok (.obj (objInsert acc ⟨k⟩ v), r5)
            | _ => .error .valueError
          | .error e => .error e
        | _ => .error .valueError
      | none => .error .valueError
    | _ => .error .valueError
  | fuel + 1, .elems acc, cs =>
    match parseJ fuel .value cs with
    | .ok (v, r2) =>
      match skipWs r2 with
      | ',' :: r3 => parseJ fuel (.elems (acc ++ [v])) r3
      | ']' :: r3 => .ok (.arr (acc ++ [v]), r3)
      | _ => .error .valueError
    | .error e => .error e

/-- Model of `json.loads` on a `str` argument. -/
def json_loads (s : String) : Except PyExc PyJson :=
  match parseJ (2 * s.data.length + 8) .value s.data with
  | .ok (v, rest) =>
    if (skipWs rest).isEmpty then .ok v else .error .valueError
  | .error e => .error e

/-! ### Python operations on decoded values -/

/-- Lookup in a decoded JSON object (Python `dict` access helper). -/
def objFind (kvs : List (String × PyJson)) (k : String) : Option PyJson :=
  (kvs.find? (fun kv => kv.1 == k)).map (fun kv => kv.2)

/-- Python `k in v` for a decoded value: key membership for a dict,
element membership for a list, substring test for a str; `TypeError`
for values that are not iterable. -/
def pyContains (v : PyJson) (k : String) : Except PyExc Bool :=
  match v with
  | .obj kvs => .ok (objFind kvs k).isSome
  | .arr xs => .ok (xs.any (fun e => match e with | .str s => s == k | _ => false))
  | .str s => .ok (containsSub k.data s.data)
  | _ => .error .typeError

/-- Python `v[k]` for a decoded value and a string key: dict item access;
`TypeError` for list and str (indices must be integers), `TypeError` for
the rest (not subscriptable). -/
def pyGetItem (v : PyJson) (k : String) : Except PyExc PyJson :=
  match v with
  | .obj kvs =>
    match objFind kvs k with
    | some x => .ok x
    | none => .error .keyError
  | _ => .error .typeError

/-- Python `v.get(k)`: only dicts have `.get`; anything else raises
`AttributeError`. A missing key yields Python `None`. -/
def pyDictGet (v : PyJson) (k : String) : Except PyExc (Option PyJson) :=
  match v with
  | .obj kvs => .ok (objFind kvs k)
  | _ => .error .attributeError

/-! ### Module constants (http.py lines 43-55) -/

def DEFAULT_VER : String := "1.9"
def USER_AGENT : String := "python-ironicclient"
def CHUNKSIZE : Nat := 1024 * 64
def API_VERSION : String := "/v1"
def API_VERSION_SELECTED_STATES : List String :=
  ["user", "negotiated", "cached", "default"]
def DEFAULT_MAX_RETRIES : Nat := 5
def DEFAULT_RETRY_INTERVAL : Nat := 2

/-! ### `_trim_endpoint_api_version` (http.py lines 58-60) -/

/-- Model of `url.rstrip('/').rstrip(API_VERSION)`. -/
def _trim_endpoint_api_version (url : String) : String :=
  pyRstrip (pyRstrip url ['/']) ['/', 'v', '1']

/-- The spec reading of the endpoint trimmer: drop any trailing slashes,
then drop exactly one trailing `/v1` path segment if present, and nothing
else.  (Stated from the spec wording, to be compared with the code.) -/
def specTrimEndpoint (url : String) : String :=
  let t : List Char := (url.data.reverse.dropWhile (fun ch => ch == '/')).reverse
  if "/v1".data.isSuffixOf t then ⟨t.take (t.length - 3)⟩ else ⟨t⟩

/-! ### `get_server` and the urlparse fields it reads (http.py 77-82)

The model of `urlparse` covers absolute URLs of the form
`scheme://netloc/...`: the netloc is the component between `://` and the
next `/`, `?` or `#`; the host/port information is what follows the last
`@` of the netloc; `hostname` is the part before the first `:` of that,
lowercased (empty gives `None`); `port` is the part after that `:`
(`None` when absent or empty, `int` when all digits and in range,
`ValueError` otherwise).  URLs without `://` have no netloc, hence
hostname and port are `None`.  IPv6 bracket syntax is outside the
modelled scope. -/

def netlocChars (url : String) : List Char :=
  match afterSubstr "://".data url.data with
  | some rest => rest.takeWhile (fun ch => !(ch == '/' || ch == '?' || ch == '#'))
  | none => []

def hostInfo (url : String) : List Char :=
  let nl := netlocChars url
  match splitLastAt '@' nl with
  | some (_, a) => a
  | none => nl

def urlHostname (url : String) : Option String :=
  let hi := hostInfo url
  let host : List Char :=
    match splitFirstAt ':' hi with
    | some (h, _) => h
    | none => hi
  if host.isEmpty then none else some ⟨host.map lowerChar⟩

def digitsToNat? (cs : List Char) : Option Nat :=
  if cs.isEmpty then none
  else if cs.all isDigitC then
    some (cs.foldl (fun n c => n * 10 + (c.toNat - 48)) 0)
  else none

def urlPort (url : String) : Except PyExc (Option Nat) :=
  match splitFirstAt ':' (hostInfo url) with
  | none => .ok none
  | some (_, p) =>
    if p.isEmpty then .ok none
    else
      match digitsToNat? p with
      | some n => if n ≤ 65535 then .ok (some n) else .error .valueError
      | none => .error .valueError

/-- Python `str` applied to `parts.port` (an `int` or `None`). -/
def pyStrOptNat : Option Nat → String
  | none => "None"
  | some n => natStr n

/-- Model of `get_server(endpoint)`: `(None, None)` for a `None` endpoint, else
`(parts.hostname, str(parts.port))`.  Accessing `parts.port` can raise
`ValueError` for a malformed port. -/
def get_server (endpoint : Option String) :
    Except PyExc (Option String × Option String) :=
  match endpoint with
  | none => .ok (none, none)
  | some url =>
    match urlPort url with
    | .error e => .error e
    | .ok p => .ok (urlHostname url, some (pyStrOptNat p))

/-! ### `_extract_error_json` (http.py lines 63-74) -/

/-- The body of the `try:` block in `_extract_error_json`:
`body_json = json.loads(body)`; if `'error_message' in body_json`, return
`json.loads(body_json['error_message'])`, else leave `error_json = {}`. -/
def _extract_error_try (s : String) : Except PyExc PyJson :=
  match json_loads s with
  | .error e => .error e
  | .ok bj =>
    match pyContains bj "error_message" with
    | .error e => .error e
    | .ok false => .ok (.obj [])
    | .ok true =>
      match pyGetItem bj "error_message" with
      | .error e => .error e
      | .ok raw =>
        match raw with
        | .str rs => json_loads rs
        | _ => .error .typeError  -- json.loads on a non-str argument

/-- Model of `_extract_error_json(body)`.  Only `ValueError` is caught; `body` may
be `None` (the octet-stream branch of `HTTPClient._http_request` leaves
`body_str = None`), in which case `json.loads(None)` raises `TypeError`. -/
def _extract_error_json (body : Option String) : Except PyExc PyJson :=
  match body with
  | none => .error .typeError
  | some s =>
    match _extract_error_try s with
    | .error .valueError => .ok (.obj [])
    | r => r

/-! ### Response objects and version headers -/

/-- A response as far as this code observes it: a status code and a
header mapping with case-insensitive keys. -/
structure Resp where
  status : Nat
  headers : List (String × String)

/-- Lowercase a string (ASCII, the only case the header names use). -/
def lowerStr (s : String) : String := ⟨s.data.map lowerChar⟩

/-- Model of `resp.getheader(name, None)` / `resp.headers.get(name)`:
case-insensitive header lookup. -/
def Resp.getheader (r : Resp) (name : String) : Option String :=
  (r.headers.find? (fun kv => lowerStr kv.1 == lowerStr name)).map (fun kv => kv.2)

/-- Model of `_generic_parse_version_headers` (http.py lines 149-154): the
`(min, max)` version header pair. -/
def parse_version_headers (r : Resp) : Option String × Option String :=
  (r.getheader "X-OpenStack-Ironic-API-Minimum-Version",
   r.getheader "X-OpenStack-Ironic-API-Maximum-Version")

/-- Model of `resp[key]` on an `httplib` response object: `HTTPResponse`
defines no `__getitem__`, so subscripting it raises an exception instead
of reading a header — `TypeError` on Python 3 (modelled here), an
`AttributeError` on the old-style Python 2 class; either way the redirect
branch of `HTTPClient._http_request` (line 358) raises rather than
redirecting. -/
def Resp.getitem (_r : Resp) (_key : String) : Except PyExc String :=
  .error .typeError

/-! ### `distutils.version.StrictVersion` as used here

The client feeds `major.minor` microversion strings to `StrictVersion`.
The model covers numeric `major.minor` and `major.minor.patch` versions
(prerelease suffixes are never produced by this client or by the version
headers; anything else raises `ValueError`, as `StrictVersion.parse`
does). -/

structure StrictVer where
  major : Nat
  minor : Nat
  patch : Nat
deriving DecidableEq

def strictVersionParse (s : String) : Except PyExc StrictVer :=
  match (splitOnChar '.' s.data).map digitsToNat? with
  | [some a, some b] => .ok ⟨a, b, 0⟩
  | [some a, some b, some c] => .ok ⟨a, b, c⟩
  | _ => .error .valueError

/-- Tuple comparison of parsed versions (`StrictVersion.__le__`). -/
def StrictVer.le (a b : StrictVer) : Bool :=
  a.major < b.major ||
    (a.major == b.major &&
      (a.minor < b.minor || (a.minor == b.minor && a.patch ≤ b.patch)))

/-- Model of `str(StrictVersion(...))`: `major.minor` when the patch level is 0. -/
def StrictVer.str (v : StrictVer) : String :=
  if v.patch == 0 then natStr v.major ++ "." ++ natStr v.minor
  else natStr v.major ++ "." ++ natStr v.minor ++ "." ++ natStr v.patch

/-- Model of `StrictVersion(x)` for the optional version attribute.
`StrictVersion(None)` and `StrictVersion("")` skip `parse` (the argument
is falsy), and the subsequent comparison raises `AttributeError`. -/
def strictVersionOf : Option String → Except PyExc StrictVer
  | none => .error .attributeError
  | some s => if s.isEmpty then .error .attributeError else strictVersionParse s

/-! ### `exc.from_response` and the 4xx/5xx raise path -/

/-- Modelled from the spec: `exc.from_response` (in the missing
`ironicclient.exc` module) builds the typed error carrying status, fault
string, debug info, method and URL. -/
def from_response (resp : Resp) (fault debug : Option PyJson)
    (method url : String) : PyExc :=
  .fromResponse ⟨resp.status, fault, debug, method, url⟩

/-- The exception produced by the 400..599 branch:
`error_json = _extract_error_json(body_str)` followed by
`exc.from_response(resp, error_json.get('faultstring'),
error_json.get('debuginfo'), method, url)`.  Exceptions escaping the
extraction or the `.get` calls propagate instead. -/
def error_raise (resp : Resp) (body : Option String) (method url : String) :
    PyExc :=
  match _extract_error_json body with
  | .error e => e
  | .ok ej =>
    match pyDictGet ej "faultstring" with
    | .error e => e
    | .ok f =>
      match pyDictGet ej "debuginfo" with
      | .error e => e
      | .ok d => from_response resp f d method url

/-! ### The negotiated-version cache -/

/-- The external cache store, keyed by `(host, port)`. -/
abbrev Cache := List ((Option String × Option String) × String)

/-- Modelled from the spec: `filecache.save_data(host, port, data)` (the
`ironicclient.common.filecache` module is not among the sources) writes
`(host, port) -> data` into an external key-value store where the value
last written wins. -/
def save_data (host port : Option String) (data : String) (cache : Cache) :
    Cache :=
  ((host, port), data) :: cache.filter (fun e => !(e.1 == (host, port)))

/-! ### `VersionNegotiationMixin.negotiate_version` (http.py 85-147) -/

/-- The mutable client attributes that negotiation reads and writes
(shared by `HTTPClient` and `SessionClient`). -/
structure Client where
  api_version_select_state : String
  os_ironic_api_version : Option String
  auth_token : Option String
  endpoint : Option String

/-- Everything observable about one `negotiate_version` call: the
returned value or raised exception, the client attributes afterwards,
the cache afterwards, and the supplementary probe requests issued
(as (method, url) pairs). -/
structure NegotiationResult where
  result : Except PyExc String
  client : Client
  cache : Cache
  probes : List (String × String)

/-- Lines 113-147 of http.py: everything after the `(min_ver, max_ver)`
pair has been determined.  Returns (result, client after, cache after).

* state `user` / `negotiated`: raise `UnsupportedVersion`, touch nothing;
* otherwise `negotiated_ver = str(min(StrictVersion(req),
  StrictVersion(max_ver)))`, then the clamp `if negotiated_ver < min_ver`
  is a plain Python STRING comparison (`pyStrLt`), not a version
  comparison;
* then the state is set to `negotiated`, the version stored, and
  `(host, port) = get_server(endpoint)` is used as the cache key
  (a `ValueError` from `get_server` would propagate after the state
  mutation but before the cache write).
A comparison against `min_ver = None` is modelled as `TypeError`. -/
def negotiate_after (c : Client) (cache : Cache) (minv maxv : Option String) :
    Except PyExc String × Client × Cache :=
  if c.api_version_select_state == "user" then
    (.error (.unsupportedVersion c.os_ironic_api_version minv maxv), c, cache)
  else if c.api_version_select_state == "negotiated" then
    (.error (.unsupportedVersion c.os_ironic_api_version minv maxv), c, cache)
  else
    match strictVersionOf c.os_ironic_api_version with
    | .error e => (.error e, c, cache)
    | .ok rv =>
      match strictVersionOf maxv with
      | .error e => (.error e, c, cache)
      | .ok xv =>
        let negotiated := StrictVer.str (if StrictVer.le rv xv then rv else xv)
        match minv with
        | none => (.error .typeError, c, cache)
        | some mv =>
          let nv := if pyStrLt negotiated mv then mv else negotiated
          let c2 := { c with api_version_select_state := "negotiated",
                             os_ironic_api_version := some nv }
          match get_server c.endpoint with
          | .error e => (.error e, c2, cache)
          | .ok hp => (.ok nv, c2, save_data hp.1 hp.2 nv cache)

/-- The URL of the supplementary version probe (http.py lines 106-110):
`/v<major>` of the requested version when one is set (truthy), else the
default `API_VERSION` root. -/
def probe_base (c : Client) : String :=
  if pyTruthyStr c.os_ironic_api_version then
    "/v" ++ String.mk ((splitOnChar '.'
      ((c.os_ironic_api_version.getD "").data)).headD [])
  else API_VERSION

/-- Model of `negotiate_version(conn, resp)`.  `probe` stands for
`self._make_simple_request(conn, 'GET', url)` followed by reading the
response; every probe actually issued is recorded in `probes`.

Lines 94-99: unknown select state raises `RuntimeError`.
Lines 100-112: read the version headers from `resp`; if `max_ver` is
falsy, issue one `GET probe_base` probe and re-extract the pair from
that response. -/
def negotiate_version (c : Client) (cache : Cache) (resp : Resp)
    (probe : String → Resp) : NegotiationResult :=
  if API_VERSION_SELECTED_STATES.contains c.api_version_select_state then
    let pv := parse_version_headers resp
    if !pyTruthyStr pv.2 then
      let pv2 := parse_version_headers (probe (probe_base c))
      let o := negotiate_after c cache pv2.1 pv2.2
      ⟨o.1, o.2.1, o.2.2, [("GET", probe_base c)]⟩
    else
      let o := negotiate_after c cache pv.1 pv.2
      ⟨o.1, o.2.1, o.2.2, []⟩
  else
    ⟨.error .runtimeError, c, cache, []⟩

/-- The spec formula for the negotiated version:
`clamp(min(requested, max), lower_bound=min)` with BOTH comparisons
performed on structured `major.minor` version numbers.  (Stated from the
spec wording, to be compared with the code.) -/
def specNegotiated (req minv maxv : String) : Option String :=
  match strictVersionParse req, strictVersionParse minv,
      strictVersionParse maxv with
  | .ok r, .ok m, .ok x =>
    let n := if StrictVer.le r x then r else x
    some (StrictVer.str (if StrictVer.le m n then n else m))
  | _, _, _ => none

/-! ### `with_retries` (http.py lines 165-195) -/

/-- Model of `_RETRY_EXCEPTIONS = (exc.Conflict, exc.ServiceUnavailable,
exc.ConnectionRefused)`. -/
def isRetryExc : PyExc → Bool
  | .conflict => true
  | .serviceUnavailable => true
  | .connectionRefused => true
  | _ => false

/-- The `for attempt in range(1, num_attempts + 1)` loop of the retry
wrapper.  `f attempt` is one invocation of the wrapped function;
`remaining` counts the iterations the range still holds (so the code's
`attempt == num_attempts` test is `remaining = 1` here).  Returns the
outcome (`none` when the range is exhausted without returning, which
Python renders as returning `None`), the number of invocations made, and
the list of sleep durations performed. -/
def retry_go (f : Nat → Except PyExc α) (t : Nat) :
    Nat → Nat → Option (Except PyExc α) × Nat × List Nat
  | _, 0 => (none, 0, [])
  | attempt, r + 1 =>
    match f attempt with
    | .ok v => (some (.ok v), 1, [])
    | .error e =>
      if isRetryExc e then
        if r == 0 then (some (.error e), 1, [])
        else
          let o := retry_go f t (attempt + 1) r
          (o.1, o.2.1 + 1, t :: o.2.2)
      else (some (.error e), 1, [])

/-- Model of `with_retries`: `None` retry parameters fall back to the module
defaults, `num_attempts = max_retries + 1`, attempts start at 1. -/
def with_retries (maxRetries retryInterval : Option Nat)
    (f : Nat → Except PyExc α) : Option (Except PyExc α) × Nat × List Nat :=
  retry_go f (retryInterval.getD DEFAULT_RETRY_INTERVAL) 1
    ((maxRetries.getD DEFAULT_MAX_RETRIES) + 1)

/-! ### `HTTPClient.__init__` (http.py 200-213) and header assembly -/

/-- The keyword arguments of `HTTPClient.__init__` that matter here.
`none` at the outer level means the keyword was absent (so `kwargs.get`
falls back to its default). -/
structure HTTPClientKwargs where
  token : Option String
  os_ironic_api_version_kw : Option (Option String)
  api_version_select_state_kw : Option String

/-- Model of `HTTPClient.__init__`: `os_ironic_api_version` defaults to
`DEFAULT_VER` when the keyword is absent, `api_version_select_state`
defaults to `'default'`. -/
def HTTPClient.init (endpoint : String) (kw : HTTPClientKwargs) : Client :=
  { api_version_select_state := kw.api_version_select_state_kw.getD "default"
    os_ironic_api_version :=
      match kw.os_ironic_api_version_kw with
      | none => some DEFAULT_VER
      | some v => v
    auth_token := kw.token
    endpoint := some endpoint }

/-- Python `dict.setdefault` on a header mapping. -/
def headersSetdefault (hs : List (String × String)) (k v : String) :
    List (String × String) :=
  if hs.any (fun kv => kv.1 == k) then hs else hs ++ [(k, v)]

/-- Header assembly of `HTTPClient._http_request` (lines 303-309):
`setdefault` of `User-Agent`, then of the version header when
`self.os_ironic_api_version` is truthy, then of `X-Auth-Token` when
`self.auth_token` is truthy. -/
def HTTPClient.build_headers (c : Client) (headers : List (String × String)) :
    List (String × String) :=
  let hs := headersSetdefault headers "User-Agent" USER_AGENT
  let hs :=
    if pyTruthyStr c.os_ironic_api_version then
      headersSetdefault hs "X-OpenStack-Ironic-API-Version"
        (c.os_ironic_api_version.getD "")
    else hs
  if pyTruthyStr c.auth_token then
    headersSetdefault hs "X-Auth-Token" (c.auth_token.getD "")
  else hs

/-- Header assembly of `SessionClient._http_request` (lines 489-491):
`setdefault` of the version header when the attribute is truthy
(`getattr(self, 'os_ironic_api_version', None)`). -/
def SessionClient.build_headers (os_ironic_api_version : Option String)
    (headers : List (String × String)) : List (String × String) :=
  if pyTruthyStr os_ironic_api_version then
    headersSetdefault headers "X-OpenStack-Ironic-API-Version"
      (os_ironic_api_version.getD "")
  else headers

/-! ### Status classification of the two request executors -/

/-- The request arguments that a reissued request reuses. -/
structure RequestKwargs where
  headers : List (String × String)
  body : Option String

/-- What the executor does after observing one response. -/
inductive HttpStep where
  | negotiateRetry
  | reissue (url : Option String) (method : String) (kwargs : RequestKwargs)
  | raiseExc (e : PyExc)
  | success

/-- Status dispatch of `HTTPClient._http_request` (lines 323-362):
406 negotiates and retries; 400..599 raises via `_extract_error_json` and
`exc.from_response`; 301/302/305 evaluates `resp['location']` (which
raises `TypeError`, `Resp.getitem`) before it could reissue; 300 raises;
anything else succeeds.  `body_str` is `None` for octet-stream
responses. -/
def HTTPClient.classify_response (resp : Resp) (body_str : Option String)
    (method url : String) (kwargs : RequestKwargs) : HttpStep :=
  if resp.status == 406 then .negotiateRetry
  else if 400 ≤ resp.status && resp.status < 600 then
    .raiseExc (error_raise resp body_str method url)
  else if resp.status == 301 || resp.status == 302 || resp.status == 305 then
    match Resp.getitem resp "location" with
    | .error e => .raiseExc e
    | .ok loc => .reissue (some loc) method kwargs
  else if resp.status == 300 then
    .raiseExc (from_response resp none none method url)
  else .success

/-- Status dispatch of `SessionClient._http_request` (lines 500-515):
the same classification, except that the body is `resp.content` (always a
string) and the redirect target is `resp.headers.get('location')`. -/
def SessionClient.classify_response (resp : Resp) (content : String)
    (method url : String) (kwargs : RequestKwargs) : HttpStep :=
  if resp.status == 406 then .negotiateRetry
  else if 400 ≤ resp.status && resp.status < 600 then
    .raiseExc (error_raise resp (some content) method url)
  else if resp.status == 301 || resp.status == 302 || resp.status == 305 then
    .reissue (resp.getheader "location") method kwargs
  else if resp.status == 300 then
    .raiseExc (from_response resp none none method url)
  else .success

/-! ### `ResponseBodyIterator` (http.py 548-563) -/

/-- Model of `self.resp.read(CHUNKSIZE)` over an in-memory payload: the next
`amt` bytes from position `pos`. -/
def respRead (payload : List UInt8) (pos amt : Nat) : List UInt8 :=
  (payload.drop pos).take amt

/-- The iterator loop: read `CHUNKSIZE` bytes; an empty read stops the
iteration (`StopIteration`), a non-empty read is yielded.  Fuel-driven;
`payload.length + 1` fuel always suffices since the position advances by
`CHUNKSIZE ≥ 1` per chunk. -/
def bodyChunksGo (payload : List UInt8) : Nat → Nat → List (List UInt8)
  | _, 0 => []
  | pos, fuel + 1 =>
    let chunk := respRead payload pos CHUNKSIZE
    if chunk.isEmpty then [] else chunk :: bodyChunksGo payload (pos + CHUNKSIZE) fuel

/-- All chunks yielded by iterating `ResponseBodyIterator` over a finite
payload. -/
def bodyChunks (payload : List UInt8) : List (List UInt8) :=
  bodyChunksGo payload 0 (payload.length + 1)

/-- The sizes the iteration yields, as a function of the payload length
only. -/
def chunkSizesGo : Nat → Nat → Nat → List Nat
  | _, _, 0 => []
  | len, pos, fuel + 1 =>
    if len ≤ pos then [] else min CHUNKSIZE (len - pos) :: chunkSizesGo len (pos + CHUNKSIZE) fuel

def chunkSizes (len : Nat) : List Nat := chunkSizesGo len 0 (len + 1)

/-! ### Concrete fixtures shared by the theorems below -/

/-- A response carrying the two version headers. -/
def respWithVersions (status : Nat) (mn mx : String) : Resp :=
  ⟨status, [("X-OpenStack-Ironic-API-Minimum-Version", mn),
            ("X-OpenStack-Ironic-API-Maximum-Version", mx)]⟩

/-- A response with no headers at all. -/
def plainResp (status : Nat) : Resp := ⟨status, []⟩

/-- A probe returning a fixed version-header response for every URL. -/
def probeFixed (mn mx : String) : String → Resp :=
  fun _ => respWithVersions 200 mn mx

/-- A probe returning a headerless response for every URL. -/
def probeEmpty : String → Resp := fun _ => plainResp 200

/-! ### Claim theorems -/

/-- Claim C1 (code_bug): `negotiate_version` computes
`min(requested, max_version)` with structured `StrictVersion` comparison,
but the clamp `if negotiated_ver < min_ver` compares the two version
STRINGS lexicographically.  At requested `1.2`, `min 1.10`, `max 1.31`
the code returns `1.2` (below the server minimum, because
`"1.2" > "1.10"` as strings) whereas the claimed formula gives `1.10`.
The three explicit spec examples do hold on the code. -/
theorem c1_negotiation_clamp_divergence :
    (negotiate_version ⟨"default", some "1.2", none, some "http://host:6385/v1"⟩
        [] (respWithVersions 406 "1.10" "1.31") probeEmpty).result = .ok "1.2"
  ∧ specNegotiated "1.2" "1.10" "1.31" = some "1.10"
  ∧ (negotiate_version ⟨"default", some "1.9", none, some "http://host:6385/v1"⟩
        [] (respWithVersions 406 "1.1" "1.31") probeEmpty).result = .ok "1.9"
  ∧ (negotiate_version ⟨"default", some "1.40", none, some "http://host:6385/v1"⟩
        [] (respWithVersions 406 "1.1" "1.31") probeEmpty).result = .ok "1.31"
  ∧ (negotiate_version ⟨"default", some "1.0", none, some "http://host:6385/v1"⟩
        [] (respWithVersions 406 "1.6" "1.31") probeEmpty).result = .ok "1.6" :=
  ⟨rfl, rfl, rfl, rfl, rfl⟩

/-- Claim C4 (code_bug): on a 302 answering a POST, the session variant
does reissue the same POST with the same body to the `Location` value,
but the raw-socket variant evaluates `resp['location']` on an `httplib`
response object, which raises `TypeError` instead of redirecting. -/
theorem c4_redirect_divergence :
    HTTPClient.classify_response ⟨302, [("Location", "http://new/path")]⟩
        (some "") "POST" "/nodes"
        ⟨[("Content-Type", "application/json")], some "payload"⟩ =
      .raiseExc .typeError
  ∧ SessionClient.classify_response ⟨302, [("Location", "http://new/path")]⟩
        "" "POST" "/nodes"
        ⟨[("Content-Type", "application/json")], some "payload"⟩ =
      .reissue (some "http://new/path") "POST"
        ⟨[("Content-Type", "application/json")], some "payload"⟩ :=
  ⟨rfl, rfl⟩

/-- Claim C5, counterexample: the structured-payload extraction CAN
itself raise.  An absent body (`None`, the octet-stream error path)
raises `TypeError` because `json.loads(None)` is not caught by
`except ValueError`; a body parsing to a JSON number raises `TypeError`
at `'error_message' in body_json`.  Also, status 406 — which lies in
400..599 — does not raise a typed error but triggers negotiation. -/
theorem c5_extraction_raises_cex :
    _extract_error_json none = .error .typeError
  ∧ _extract_error_json (some "42") = .error .typeError
  ∧ HTTPClient.classify_response ⟨406, []⟩ (some "") "GET" "/nodes" ⟨[], none⟩ =
      .negotiateRetry :=
  ⟨rfl, rfl, rfl⟩

/-- Claim C8, counterexample: a raw-socket client constructed with no
pinned version and no negotiation still sends
`X-OpenStack-Ironic-API-Version` — `HTTPClient.__init__` defaults
`os_ironic_api_version` to `DEFAULT_VER = '1.9'`, which is truthy. -/
theorem c8_default_version_header_cex :
    (HTTPClient.init "http://ironic:6385/v1" ⟨none, none, none⟩).api_version_select_state
        = "default"
  ∧ (HTTPClient.init "http://ironic:6385/v1" ⟨none, none, none⟩).os_ironic_api_version
        = some "1.9"
  ∧ HTTPClient.build_headers (HTTPClient.init "http://ironic:6385/v1" ⟨none, none, none⟩) []
        = [("User-Agent", "python-ironicclient"),
           ("X-OpenStack-Ironic-API-Version", "1.9")] :=
  ⟨rfl, rfl, rfl⟩

/-- Claim C9, counterexample: `rstrip` removes a character SET, so the
endpoint `http://host:6385/v11` — whose path does not end in a `/v1`
segment — loses its whole `/v11` tail instead of being returned
unchanged. -/
theorem c9_trim_cex :
    _trim_endpoint_api_version "http://host:6385/v11" = "http://host:6385"
  ∧ specTrimEndpoint "http://host:6385/v11" = "http://host:6385/v11"
  ∧ ("http://host:6385" : String) ≠ "http://host:6385/v11" :=
  ⟨rfl, rfl, by decide⟩

/-- If every attempt the loop can make fails with a retryable exception,
the loop runs through all `r + 1` attempts, sleeping between consecutive
ones, and ends with the last attempt's exception. -/
theorem retry_go_allfail {α : Type} (f : Nat → Except PyExc α) (t : Nat) :
    ∀ (r a : Nat) (e : PyExc),
      (∀ k, a ≤ k → k ≤ a + r → ∃ e2, f k = .error e2 ∧ isRetryExc e2 = true) →
      f (a + r) = .error e →
      retry_go f t a (r + 1) = (some (.error e), r + 1, List.replicate r t) := by
  intro r
  induction r with
  | zero =>
    intro a e h hf
    obtain ⟨e2, hf2, hr2⟩ := h a (Nat.le_refl a) (Nat.le_refl a)
    rw [Nat.add_zero] at hf
    rw [hf] at hf2
    obtain rfl : e = e2 := by injection hf2
    simp [retry_go, hf, hr2]
  | succ r ih =>
    intro a e h hf
    obtain ⟨e0, hf0, hr0⟩ := h a (Nat.le_refl a) (by omega)
    have hrec := ih (a + 1) e
      (fun k hk1 hk2 => h k (by omega) (by omega))
      (by rw [show a + 1 + r = a + (r + 1) by omega]; exact hf)
    have hstep := retry_go.eq_2 f t a (r + 1)
    rw [hf0] at hstep
    simp only [hr0, if_true] at hstep
    rw [if_neg (by simp)] at hstep
    rw [hrec] at hstep
    show retry_go f t a (Nat.succ (r + 1)) =
      (some (.error e), r + 1 + 1, List.replicate (r + 1) t)
    rw [hstep]
    simp [List.replicate_succ]

/-- Claim C2: with `max_retries = N` and `retry_interval = T`, a wrapped
attempt that always fails with a retryable exception is invoked exactly
`N + 1` times with exactly `N` sleeps of `T` seconds, and the last
failure is re-raised unchanged; a non-retryable exception propagates
after a single attempt with no sleep. -/
theorem c2_retry_wrapper {α : Type} (N T : Nat) (f : Nat → Except PyExc α)
    (e : PyExc) :
    ((∀ k, 1 ≤ k → k ≤ N + 1 → ∃ e2, f k = .error e2 ∧ isRetryExc e2 = true) →
      f (N + 1) = .error e →
      with_retries (some N) (some T) f = (some (.error e), N + 1, List.replicate N T))
  ∧ (isRetryExc e = false → f 1 = .error e →
      with_retries (some N) (some T) f = (some (.error e), 1, [])) := by
  constructor
  · intro h hf
    unfold with_retries
    simp only [Option.getD_some]
    exact retry_go_allfail f T N 1 e
      (fun k hk1 hk2 => h k hk1 (by omega))
      (by rw [show 1 + N = N + 1 by omega]; exact hf)
  · intro hre hf
    unfold with_retries
    simp only [Option.getD_some]
    simp [retry_go, hf, hre]

/-- Witness for C2: a function that always raises `ConnectionRefused`
under `max_retries = 5`, `retry_interval = 2` is attempted 6 times with 5
sleeps of 2 seconds; a `TypeError` propagates after one attempt. -/
theorem c2_retry_wrapper_witness :
    with_retries (some 5) (some 2)
        (fun _ => .error (α := Unit) .connectionRefused) =
      (some (.error .connectionRefused), 6, [2, 2, 2, 2, 2])
  ∧ with_retries (some 5) (some 2) (fun _ => .error (α := Unit) .typeError) =
      (some (.error .typeError), 1, []) :=
  ⟨(c2_retry_wrapper 5 2 (fun _ => .error .connectionRefused) .connectionRefused).1
      (fun _ _ _ => ⟨.connectionRefused, rfl, rfl⟩) rfl,
   (c2_retry_wrapper 5 2 (fun _ => .error .typeError) .typeError).2 rfl rfl⟩

/-- In select state `user` or `negotiated`, the post-extraction phase
raises `UnsupportedVersion` and changes neither the client attributes nor
the cache. -/
theorem negotiate_after_blocked (c : Client) (cache : Cache)
    (minv maxv : Option String)
    (h : c.api_version_select_state = "negotiated" ∨
         c.api_version_select_state = "user") :
    negotiate_after c cache minv maxv =
      (.error (.unsupportedVersion c.os_ironic_api_version minv maxv), c, cache) := by
  rcases h with h | h <;> rw [negotiate_after, h] <;> rfl

/-- Claim C3: calling `negotiate_version` while the select state is
`negotiated` (or `user`) raises `UnsupportedVersion` and leaves the
stored version, the select state and the external cache unchanged. -/
theorem c3_no_renegotiation (c : Client) (cache : Cache) (resp : Resp)
    (probe : String → Resp)
    (h : c.api_version_select_state = "negotiated" ∨
         c.api_version_select_state = "user") :
    (∃ m M, (negotiate_version c cache resp probe).result =
        .error (.unsupportedVersion c.os_ironic_api_version m M))
  ∧ (negotiate_version c cache resp probe).client = c
  ∧ (negotiate_version c cache resp probe).cache = cache := by
  have hc : API_VERSION_SELECTED_STATES.contains c.api_version_select_state = true := by
    rcases h with h | h <;> rw [h] <;> rfl
  rw [negotiate_version, if_pos hc]
  by_cases hb : pyTruthyStr (parse_version_headers resp).2
  · simp only [hb, Bool.not_true, Bool.false_eq_true, if_false,
      negotiate_after_blocked c cache _ _ h]
    exact ⟨⟨_, _, rfl⟩, trivial, trivial⟩
  · simp only [Bool.not_eq_true] at hb
    simp only [hb, Bool.not_false, if_true,
      negotiate_after_blocked c cache _ _ h]
    exact ⟨⟨_, _, rfl⟩, trivial, trivial⟩

/-- Witness for C3: a concrete already-negotiated client is blocked and
untouched. -/
theorem c3_no_renegotiation_witness :
    (∃ m M, (negotiate_version ⟨"negotiated", some "1.5", none, none⟩
        [((none, none), "1.5")] (respWithVersions 406 "1.1" "1.31")
        probeEmpty).result = .error (.unsupportedVersion (some "1.5") m M))
  ∧ (negotiate_version ⟨"negotiated", some "1.5", none, none⟩
        [((none, none), "1.5")] (respWithVersions 406 "1.1" "1.31")
        probeEmpty).client = ⟨"negotiated", some "1.5", none, none⟩
  ∧ (negotiate_version ⟨"negotiated", some "1.5", none, none⟩
        [((none, none), "1.5")] (respWithVersions 406 "1.1" "1.31")
        probeEmpty).cache = [((none, none), "1.5")] :=
  c3_no_renegotiation ⟨"negotiated", some "1.5", none, none⟩
    [((none, none), "1.5")] (respWithVersions 406 "1.1" "1.31") probeEmpty
    (Or.inl rfl)

/-- Claim C6: when the triggering response carries no (truthy)
maximum-version header, `negotiate_version` issues exactly one
supplementary `GET` probe against `probe_base` (`/v<major>` of the pinned
version, else the API root) and then behaves exactly as it would have on
the probe's response — i.e. the min/max pair is re-extracted from the
probe response before negotiation proceeds.  When the header is present,
no probe is issued. -/
theorem c6_supplementary_probe (c : Client) (cache : Cache) (resp : Resp)
    (probe : String → Resp)
    (hstate : API_VERSION_SELECTED_STATES.contains c.api_version_select_state
        = true) :
    (pyTruthyStr (parse_version_headers resp).2 = false →
      (negotiate_version c cache resp probe).probes = [("GET", probe_base c)]
      ∧ (pyTruthyStr (parse_version_headers (probe (probe_base c))).2 = true →
          negotiate_version c cache resp probe =
            { negotiate_version c cache (probe (probe_base c)) probe with
                probes := [("GET", probe_base c)] }))
  ∧ (pyTruthyStr (parse_version_headers resp).2 = true →
      (negotiate_version c cache resp probe).probes = []) := by
  constructor
  · intro h1
    constructor
    · rw [negotiate_version, if_pos hstate]
      simp [h1]
    · intro h2
      rw [negotiate_version, if_pos hstate]
      simp only [h1, Bool.not_false, if_true]
      conv_rhs => rw [negotiate_version, if_pos hstate]
      simp only [h2, Bool.not_true, Bool.false_eq_true, if_false]
  · intro h1
    rw [negotiate_version, if_pos hstate]
    simp [h1]

/-- Witness for C6: a 406 with no version headers on a default-state
client pinned at 1.9 probes `GET /v1` exactly once and negotiates from
the probe response; the same 406 carrying the headers probes nothing. -/
theorem c6_supplementary_probe_witness :
    (negotiate_version ⟨"default", some "1.9", none, none⟩ [] (plainResp 406)
        (probeFixed "1.1" "1.31")).probes = [("GET", "/v1")]
  ∧ negotiate_version ⟨"default", some "1.9", none, none⟩ [] (plainResp 406)
        (probeFixed "1.1" "1.31") =
      { negotiate_version ⟨"default", some "1.9", none, none⟩ []
          (respWithVersions 200 "1.1" "1.31") (probeFixed "1.1" "1.31") with
            probes := [("GET", "/v1")] }
  ∧ (negotiate_version ⟨"default", some "1.9", none, none⟩ []
        (respWithVersions 406 "1.1" "1.31") (probeFixed "1.1" "1.31")).probes
      = [] :=
  ⟨((c6_supplementary_probe ⟨"default", some "1.9", none, none⟩ [] (plainResp 406)
      (probeFixed "1.1" "1.31") rfl).1 rfl).1,
   ((c6_supplementary_probe ⟨"default", some "1.9", none, none⟩ [] (plainResp 406)
      (probeFixed "1.1" "1.31") rfl).1 rfl).2 rfl,
   (c6_supplementary_probe ⟨"default", some "1.9", none, none⟩ []
      (respWithVersions 406 "1.1" "1.31") (probeFixed "1.1" "1.31") rfl).2 rfl⟩

/-- A read at or past the end of the payload is empty, and only there. -/
theorem respRead_isEmpty_iff (p : List UInt8) (pos : Nat) :
    (respRead p pos CHUNKSIZE).isEmpty = true ↔ p.length ≤ pos := by
  unfold respRead
  rw [List.isEmpty_iff, List.take_eq_nil_iff, List.drop_eq_nil_iff]
  constructor
  · rintro (h0 | h0)
    · exact absurd h0 (by decide)
    · exact h0
  · intro h0
    exact Or.inr h0

/-- With enough fuel, the yielded chunks concatenate to the payload from
`pos` on. -/
theorem bodyChunksGo_flatten (p : List UInt8) :
    ∀ (fuel pos : Nat), p.length - pos < fuel →
      (bodyChunksGo p pos fuel).flatten = p.drop pos := by
  intro fuel
  induction fuel with
  | zero => intro pos h; omega
  | succ fuel ih =>
    intro pos h
    simp only [bodyChunksGo]
    by_cases hc : (respRead p pos CHUNKSIZE).isEmpty
    · rw [if_pos hc]
      have hdrop : p.drop pos = [] :=
        List.drop_eq_nil_iff.mpr (respRead_isEmpty_iff p pos |>.mp hc)
      simp [hdrop]
    · rw [if_neg hc]
      have hpos : pos < p.length := by
        by_contra hle
        exact hc ((respRead_isEmpty_iff p pos).mpr (by omega))
      rw [List.flatten_cons, ih (pos + CHUNKSIZE)
        (by have hC : CHUNKSIZE = 65536 := rfl; omega)]
      unfold respRead
      rw [← List.drop_drop]
      exact List.take_append_drop _ _

/-- The chunk sizes are a function of the payload length alone. -/
theorem bodyChunksGo_lengths (p : List UInt8) :
    ∀ (fuel pos : Nat),
      (bodyChunksGo p pos fuel).map List.length = chunkSizesGo p.length pos fuel := by
  intro fuel
  induction fuel with
  | zero => intro pos; rfl
  | succ fuel ih =>
    intro pos
    simp only [bodyChunksGo, chunkSizesGo]
    by_cases hc : (respRead p pos CHUNKSIZE).isEmpty
    · rw [if_pos hc, if_pos (respRead_isEmpty_iff p pos |>.mp hc)]
      rfl
    · rw [if_neg hc, if_neg (fun hle => hc ((respRead_isEmpty_iff p pos).mpr hle))]
      simp only [List.map_cons, ih (pos + CHUNKSIZE)]
      congr 1
      unfold respRead
      rw [List.length_take, List.length_drop]

/-- Claim C7: iterating the body stream yields chunks read at the fixed
64KB chunk size whose concatenation is the original payload, the sizes
being determined by the payload length; a 150KB (153600-byte) payload
yields exactly the chunks 64KB, 64KB, 22KB. -/
theorem c7_body_stream (p : List UInt8) :
    (bodyChunks p).flatten = p
  ∧ (bodyChunks p).map List.length = chunkSizes p.length
  ∧ chunkSizes 153600 = [65536, 65536, 22528] := by
  refine ⟨?_, bodyChunksGo_lengths p (p.length + 1) 0, by decide⟩
  have h := bodyChunksGo_flatten p (p.length + 1) 0 (by omega)
  simpa [bodyChunks] using h

/-- A `setdefault` of a different key does not affect presence of `key`. -/
theorem any_headersSetdefault_other (hs : List (String × String)) (k v key : String)
    (hk : (k == key) = false) :
    (headersSetdefault hs k v).any (fun kv => kv.1 == key)
      = hs.any (fun kv => kv.1 == key) := by
  unfold headersSetdefault
  split
  · rfl
  · simp [List.any_append, hk]

/-- A `setdefault` of `key` itself makes `key` present. -/
theorem any_headersSetdefault_add (hs : List (String × String)) (key v : String)
    (h : hs.any (fun kv => kv.1 == key) = false) :
    (headersSetdefault hs key v).any (fun kv => kv.1 == key) = true := by
  unfold headersSetdefault
  rw [if_neg (by simp [h])]
  simp [List.any_append]

/-- Claim C8 (amended): in both executor variants the
`X-OpenStack-Ironic-API-Version` request header is sent if and only if the
client's `os_ironic_api_version` attribute is truthy.  (Because
`HTTPClient.__init__` defaults that attribute to `DEFAULT_VER`, a
default-constructed client does send the header; see the
counterexample.) -/
theorem c8_version_header_iff_truthy (c : Client) (hs : List (String × String))
    (h : hs.any (fun kv => kv.1 == "X-OpenStack-Ironic-API-Version") = false) :
    ((HTTPClient.build_headers c hs).any
        (fun kv => kv.1 == "X-OpenStack-Ironic-API-Version"))
      = pyTruthyStr c.os_ironic_api_version
  ∧ ((SessionClient.build_headers c.os_ironic_api_version hs).any
        (fun kv => kv.1 == "X-OpenStack-Ironic-API-Version"))
      = pyTruthyStr c.os_ironic_api_version := by
  have h1 : (headersSetdefault hs "User-Agent" USER_AGENT).any
      (fun kv => kv.1 == "X-OpenStack-Ironic-API-Version") = false := by
    rw [any_headersSetdefault_other _ _ _ _ (by decide), h]
  constructor
  · unfold HTTPClient.build_headers
    cases ht : pyTruthyStr c.os_ironic_api_version <;>
      cases hta : pyTruthyStr c.auth_token <;>
        simp only [ht, hta, if_true, if_false, Bool.false_eq_true]
    · exact h1
    · rw [any_headersSetdefault_other _ _ _ _ (by decide), h1]
    · exact any_headersSetdefault_add _ _ _ h1
    · rw [any_headersSetdefault_other _ _ _ _ (by decide)]
      exact any_headersSetdefault_add _ _ _ h1
  · unfold SessionClient.build_headers
    cases ht : pyTruthyStr c.os_ironic_api_version <;>
      simp only [ht, if_true, if_false, Bool.false_eq_true]
    · exact h
    · exact any_headersSetdefault_add _ _ _ h

/-- Witness for C8 (amended): pinned version sends the header, an
explicitly `None` version omits it, in both variants. -/
theorem c8_version_header_iff_truthy_witness :
    ((HTTPClient.build_headers ⟨"user", some "1.31", some "token123", some "http://h/v1"⟩
        [("Accept", "application/json")]).any
        (fun kv => kv.1 == "X-OpenStack-Ironic-API-Version")) = true
  ∧ ((SessionClient.build_headers (some "1.31") [("Accept", "application/json")]).any
        (fun kv => kv.1 == "X-OpenStack-Ironic-API-Version")) = true
  ∧ ((HTTPClient.build_headers ⟨"default", none, none, some "http://h/v1"⟩
        [("Accept", "application/json")]).any
        (fun kv => kv.1 == "X-OpenStack-Ironic-API-Version")) = false :=
  ⟨(c8_version_header_iff_truthy ⟨"user", some "1.31", some "token123", some "http://h/v1"⟩
      [("Accept", "application/json")] rfl).1,
   (c8_version_header_iff_truthy ⟨"user", some "1.31", some "token123", some "http://h/v1"⟩
      [("Accept", "application/json")] rfl).2,
   (c8_version_header_iff_truthy ⟨"default", none, none, some "http://h/v1"⟩
      [("Accept", "application/json")] rfl).1⟩

/-- A `dropWhile` call skips a prefix on which the predicate holds
throughout. -/
theorem dropWhile_append_all {α : Type} (p : α → Bool) (l1 l2 : List α)
    (h : ∀ a ∈ l1, p a = true) :
    (l1 ++ l2).dropWhile p = l2.dropWhile p := by
  induction l1 with
  | nil => rfl
  | cons x xs ih =>
    rw [List.cons_append, List.dropWhile_cons,
      if_pos (h x (List.mem_cons_self x xs))]
    exact ih (fun a ha => h a (List.mem_cons_of_mem x ha))

/-- Python `rstrip` removes exactly the trailing run of characters in the set:
a string `q ++ c :: s` where all of `s` is in the set and `c` is not
strips to `q ++ [c]`. -/
theorem pyRstrip_append (q : List Char) (c : Char) (s : List Char)
    (chars : List Char) (hc : c ∉ chars) (hs : ∀ a ∈ s, a ∈ chars) :
    pyRstrip ⟨q ++ c :: s⟩ chars = ⟨q ++ [c]⟩ := by
  unfold pyRstrip
  congr 1
  have h1 : (q ++ c :: s).reverse = s.reverse ++ c :: q.reverse := by
    simp
  rw [h1, dropWhile_append_all _ _ _ (fun a ha => by
      simp only [decide_eq_true_eq]
      exact hs a (by simpa using ha)),
    List.dropWhile_cons, if_neg (by simp [hc])]
  simp

/-- Claim C9 (amended): the endpoint trimmer removes the longest trailing
run of characters from the SET `{/, v, 1}` (Python `rstrip` semantics).
When the endpoint ends in a single `/v1` segment whose preceding
character lies outside that set this agrees with the claimed behaviour
(one segment stripped, and trailing slashes after a non-set character are
stripped with the rest untouched), matching `specTrimEndpoint` there —
but not in general (see the counterexample). -/
theorem c9_trim_amended (p : List Char) (c : Char) (k : Nat)
    (hc : c ∉ ['/', 'v', '1']) :
    _trim_endpoint_api_version ⟨p ++ c :: ['/', 'v', '1']⟩ = ⟨p ++ [c]⟩
  ∧ _trim_endpoint_api_version ⟨p ++ c :: List.replicate k '/'⟩ = ⟨p ++ [c]⟩
  ∧ _trim_endpoint_api_version ⟨p ++ c :: ['/', 'v', '1']⟩
      = specTrimEndpoint ⟨p ++ c :: ['/', 'v', '1']⟩ := by
  have hcslash : c ∉ ['/'] := by
    intro hm
    apply hc
    simp only [List.mem_singleton] at hm
    simp [hm]
  have hfirst : _trim_endpoint_api_version ⟨p ++ c :: ['/', 'v', '1']⟩
      = ⟨p ++ [c]⟩ := by
    unfold _trim_endpoint_api_version
    have hshape : p ++ c :: ['/', 'v', '1'] = (p ++ c :: ['/', 'v']) ++ '1' :: [] := by
      simp
    rw [hshape, pyRstrip_append (p ++ c :: ['/', 'v']) '1' [] ['/']
        (by decide) (by simp), ← hshape,
      pyRstrip_append p c ['/', 'v', '1'] ['/', 'v', '1'] hc (by simp)]
  refine ⟨hfirst, ?_, ?_⟩
  · unfold _trim_endpoint_api_version
    rw [pyRstrip_append p c (List.replicate k '/') ['/'] hcslash
        (fun a ha => by
          rw [List.eq_of_mem_replicate ha]
          simp),
      show p ++ [c] = p ++ c :: [] from rfl,
      pyRstrip_append p c [] ['/', 'v', '1'] hc (by simp)]
  · rw [hfirst]
    unfold specTrimEndpoint
    have hdata : (String.mk (p ++ c :: ['/', 'v', '1'])).data
        = p ++ c :: ['/', 'v', '1'] := rfl
    rw [hdata]
    have hrev : (p ++ c :: ['/', 'v', '1']).reverse
        = '1' :: 'v' :: '/' :: c :: p.reverse := by simp
    rw [hrev, List.dropWhile_cons,
      if_neg (show ¬(('1' == '/') = true) by decide)]
    have hback : ('1' :: 'v' :: '/' :: c :: p.reverse).reverse
        = p ++ c :: ['/', 'v', '1'] := by simp
    rw [hback]
    have hsuf : (("/v1" : String).data.isSuffixOf (p ++ c :: ['/', 'v', '1']))
        = true := by
      rw [show ("/v1" : String).data = ['/', 'v', '1'] from rfl]
      exact List.isSuffixOf_iff_suffix.mpr ⟨p ++ [c], by simp⟩
    rw [if_pos hsuf]
    have hlen : (p ++ c :: ['/', 'v', '1']).length - 3 = (p ++ [c]).length := by
      simp
    rw [show p ++ c :: ['/', 'v', '1'] = (p ++ [c]) ++ ['/', 'v', '1'] by simp,
      show ((p ++ [c]) ++ ['/', 'v', '1']).length - 3 = (p ++ [c]).length by simp,
      List.take_left]

/-- Witness for C9 (amended): a concrete endpoint ending in `5/v1` loses
exactly the `/v1` segment, and one ending in `5//` loses exactly the
slashes. -/
theorem c9_trim_amended_witness :
    _trim_endpoint_api_version ⟨"http://host:638".data ++ '5' :: ['/', 'v', '1']⟩
        = ⟨"http://host:638".data ++ ['5']⟩
  ∧ _trim_endpoint_api_version ⟨"http://host:638".data ++ '5' :: List.replicate 2 '/'⟩
        = ⟨"http://host:638".data ++ ['5']⟩ :=
  ⟨(c9_trim_amended "http://host:638".data '5' 2 (by decide)).1,
   (c9_trim_amended "http://host:638".data '5' 2 (by decide)).2.1⟩

/-- A successful negotiation writes exactly `(host, port)` from
`get_server(endpoint)` to the cache. -/
theorem negotiate_after_ok (c : Client) (cache : Cache)
    (minv maxv : Option String) (nv : String)
    (h : (negotiate_after c cache minv maxv).1 = .ok nv) :
    ∃ hp, get_server c.endpoint = .ok hp ∧
      (negotiate_after c cache minv maxv).2.2 = save_data hp.1 hp.2 nv cache := by
  cases h1 : c.api_version_select_state == "user" with
  | true => simp [negotiate_after, h1] at h
  | false =>
  cases h2 : c.api_version_select_state == "negotiated" with
  | true => simp [negotiate_after, h1, h2] at h
  | false =>
  cases h3 : strictVersionOf c.os_ironic_api_version with
  | error e => simp [negotiate_after, h1, h2, h3] at h
  | ok rv =>
  cases h4 : strictVersionOf maxv with
  | error e => simp [negotiate_after, h1, h2, h3, h4] at h
  | ok xv =>
  cases h5 : minv with
  | none => simp [negotiate_after, h1, h2, h3, h4, h5] at h
  | some mv =>
  cases h6 : get_server c.endpoint with
  | error e => simp [negotiate_after, h1, h2, h3, h4, h5, h6] at h
  | ok hp =>
  refine ⟨hp, rfl, ?_⟩
  simp only [negotiate_after, h1, h2, h3, h4, h5, h6, Bool.false_eq_true,
    if_false] at h ⊢
  simp only [Except.ok.injEq] at h
  rw [h]

/-- Claim C10: `get_server` maps a `None` endpoint to `(None, None)` and
otherwise returns `str(parts.port)` — for a portless URL the literal
string `"None"`, not an absent value — and a successful negotiation uses
exactly that `(host, port)` pair as the cache key. -/
theorem c10_get_server_port_string :
    get_server none = .ok (none, none)
  ∧ (∀ url, urlPort url = .ok none →
      get_server (some url) = .ok (urlHostname url, some "None"))
  ∧ (∀ (c : Client) (cache : Cache) (resp : Resp) (probe : String → Resp)
        (nv : String),
      (negotiate_version c cache resp probe).result = .ok nv →
      ∃ hp, get_server c.endpoint = .ok hp ∧
        (negotiate_version c cache resp probe).cache
          = save_data hp.1 hp.2 nv cache) := by
  refine ⟨rfl, ?_, ?_⟩
  · intro url hp
    have hred : get_server (some url) =
        match urlPort url with
        | .error e => .error e
        | .ok p => .ok (urlHostname url, some (pyStrOptNat p)) := rfl
    rw [hred, hp]
    rfl
  · intro c cache resp probe nv h
    by_cases hst : API_VERSION_SELECTED_STATES.contains c.api_version_select_state
    · rw [negotiate_version, if_pos hst] at h ⊢
      by_cases hb : pyTruthyStr (parse_version_headers resp).2
      · simp only [hb, Bool.not_true, Bool.false_eq_true, if_false] at h ⊢
        exact negotiate_after_ok c cache _ _ nv h
      · simp only [Bool.not_eq_true] at hb
        simp only [hb, Bool.not_false, if_true] at h ⊢
        exact negotiate_after_ok c cache _ _ nv h
    · rw [negotiate_version, if_neg hst] at h
      exact absurd h (by simp)

/-- Witness for C10: a portless endpoint gives the pair
`(ironic.example.com, "None")`, and a concrete successful negotiation
writes under exactly that key. -/
theorem c10_get_server_port_string_witness :
    get_server (some "http://ironic.example.com/v1") =
      .ok (some "ironic.example.com", some "None")
  ∧ (∃ hp, get_server
        (Client.endpoint ⟨"default", some "1.9", none,
          some "http://ironic.example.com/v1"⟩) = .ok hp ∧
      (negotiate_version ⟨"default", some "1.9", none,
          some "http://ironic.example.com/v1"⟩ []
          (respWithVersions 406 "1.1" "1.31") probeEmpty).cache
        = save_data hp.1 hp.2 "1.9" []) :=
  ⟨c10_get_server_port_string.2.1 "http://ironic.example.com/v1" rfl,
   c10_get_server_port_string.2.2 ⟨"default", some "1.9", none,
      some "http://ironic.example.com/v1"⟩ []
      (respWithVersions 406 "1.1" "1.31") probeEmpty "1.9" rfl⟩

/-- Claim C5 (amended): for a 400..599 response other than 406, both
executors raise the typed error built from the body.  When the body is a
string whose outer JSON object carries an `error_message` string that
itself parses to a JSON object, the error carries that object's
`faultstring`/`debuginfo` with status, method and URL.  A string body
that is malformed JSON at either level, or whose outer object lacks
`error_message`, degrades to a status-only error without the extraction
raising.  (An absent body or a body parsing to a non-iterable value does
raise, and a 406 negotiates instead — see the counterexample.) -/
theorem c5_error_payload (resp : Resp) (s method url : String)
    (kwargs : RequestKwargs) :
    (json_loads s = .error .valueError →
      error_raise resp (some s) method url =
        .fromResponse ⟨resp.status, none, none, method, url⟩)
  ∧ (∀ kvs, json_loads s = .ok (.obj kvs) →
      objFind kvs "error_message" = none →
      error_raise resp (some s) method url =
        .fromResponse ⟨resp.status, none, none, method, url⟩)
  ∧ (∀ kvs rs, json_loads s = .ok (.obj kvs) →
      objFind kvs "error_message" = some (.str rs) →
      json_loads rs = .error .valueError →
      error_raise resp (some s) method url =
        .fromResponse ⟨resp.status, none, none, method, url⟩)
  ∧ (∀ kvs rs ekvs, json_loads s = .ok (.obj kvs) →
      objFind kvs "error_message" = some (.str rs) →
      json_loads rs = .ok (.obj ekvs) →
      error_raise resp (some s) method url =
        .fromResponse ⟨resp.status, objFind ekvs "faultstring",
          objFind ekvs "debuginfo", method, url⟩)
  ∧ (400 ≤ resp.status → resp.status < 600 → resp.status ≠ 406 →
      HTTPClient.classify_response resp (some s) method url kwargs =
        .raiseExc (error_raise resp (some s) method url)
      ∧ SessionClient.classify_response resp s method url kwargs =
        .raiseExc (error_raise resp (some s) method url)) := by
  refine ⟨?_, ?_, ?_, ?_, ?_⟩
  · intro h
    simp [error_raise, _extract_error_json, _extract_error_try, h, pyDictGet,
      objFind, from_response]
  · intro kvs h1 h2
    rw [objFind] at h2
    have hfind := Option.map_eq_none'.mp h2
    simp [error_raise, _extract_error_json, _extract_error_try, h1, hfind,
      pyContains, pyDictGet, objFind, from_response]
  · intro kvs rs h1 h2 h3
    rw [objFind] at h2
    obtain ⟨kv, hfind, hkv⟩ := Option.map_eq_some'.mp h2
    simp [error_raise, _extract_error_json, _extract_error_try, h1, hfind,
      hkv, h3, pyContains, pyGetItem, pyDictGet, objFind, from_response]
  · intro kvs rs ekvs h1 h2 h3
    simp [error_raise, _extract_error_json, _extract_error_try, h1, h2, h3,
      pyContains, pyGetItem, pyDictGet, from_response]
  · intro hlo hhi hne
    have h406b : (resp.status == 406) = false := beq_eq_false_iff_ne.mpr hne
    constructor
    · unfold HTTPClient.classify_response
      rw [h406b, if_neg (by simp), if_pos (by simp [hlo, hhi])]
    · unfold SessionClient.classify_response
      rw [h406b, if_neg (by simp), if_pos (by simp [hlo, hhi])]

/-- Witness for C5 (amended): the structured payload
`{"error_message": "{\"faultstring\": \"boom\", \"debuginfo\":
\"trace\"}"}` on a 500 carries `boom`/`trace`; a non-JSON body degrades
to the status-only error; and a 500 is classified as a raise by both
executors. -/
theorem c5_error_payload_witness :
    error_raise (plainResp 500)
        (some "\x7b\"error_message\": \"\x7b\\\"faultstring\\\": \\\"boom\\\", \\\"debuginfo\\\": \\\"trace\\\"\x7d\"\x7d")
        "GET" "/nodes" =
      .fromResponse ⟨500, some (.str "boom"), some (.str "trace"), "GET", "/nodes"⟩
  ∧ error_raise (plainResp 500) (some "not json") "GET" "/nodes" =
      .fromResponse ⟨500, none, none, "GET", "/nodes"⟩
  ∧ HTTPClient.classify_response (plainResp 500) (some "not json") "GET"
        "/nodes" ⟨[], none⟩ =
      .raiseExc (error_raise (plainResp 500) (some "not json") "GET" "/nodes") :=
  ⟨(c5_error_payload (plainResp 500)
      "\x7b\"error_message\": \"\x7b\\\"faultstring\\\": \\\"boom\\\", \\\"debuginfo\\\": \\\"trace\\\"\x7d\"\x7d"
      "GET" "/nodes" ⟨[], none⟩).2.2.2.1
      [("error_message", .str "\x7b\"faultstring\": \"boom\", \"debuginfo\": \"trace\"\x7d")]
      "\x7b\"faultstring\": \"boom\", \"debuginfo\": \"trace\"\x7d"
      [("faultstring", .str "boom"), ("debuginfo", .str "trace")]
      rfl rfl rfl,
   (c5_error_payload (plainResp 500) "not json" "GET" "/nodes" ⟨[], none⟩).1 rfl,
   ((c5_error_payload (plainResp 500) "not json" "GET" "/nodes"
      ⟨[], none⟩).2.2.2.2 (by decide) (by decide) (by decide)).1⟩

end IronicSpec
